import Mathlib

/-!
# Verification of the uptime-dashboard health-check engine

A shallow embedding of `app/main.py` (FastAPI uptime dashboard): the config
loader (`load_services`), the probe executor (`check_one`), the bounded
fan-out prober (`check_all_once`, modelled as a semaphore transition system),
the status store (a Python dict embedded as an insertion-ordered association
list), the scheduler loop (`background_loop`), the shutdown handler
(`on_shutdown`), and the HTTP operations (`api_status`, `api_wake`,
`api_reload`).

Network I/O is externalised: wherever the Python code awaits
`client.request(...)`, the embedding takes the outcome of that call as a
parameter of type `Except String Nat` (either an exception message or an HTTP
status code), and wall-clock reads (`time.time()`) become explicit `Nat`
millisecond parameters.  Everything else is translated line by line.
-/

namespace Uptime

/-- `GLOBAL_TIMEOUT_SECONDS = float(os.getenv("GLOBAL_TIMEOUT_SECONDS", "8.0"))`
(main.py line 15); we model the default value, as a rational. -/
def GLOBAL_TIMEOUT_SECONDS : Rat := 8

/-- `CONFIG_PATH` default (main.py line 13), relative to the app directory. -/
def CONFIG_PATH : String := "../config/services.yaml"

/-- One record of the `services:` list as parsed from YAML, before
`load_services` applies defaults (main.py lines 31-41).  A key absent from the
dict is `none`.  Per the data-model invariant, `url` is present and non-empty,
so it is a plain field. -/
structure RawService where
  url : String
  name : Option String := none
  method : Option String := none
  timeout : Option Rat := none
  expect_status : Option Nat := none
  headers : Option (List (String × String)) := none
  body : Option String := none
  wake_url : Option String := none
  wake_method : Option String := none
  wake_body : Option String := none
  wake_headers : Option (List (String × String)) := none
  region : Option String := none
  tags : Option (List String) := none
deriving DecidableEq, Repr

/-- A service record after the `setdefault` loop of `load_services`
(main.py lines 32-41).  Fields the loop defaults are now plain; fields it does
NOT touch (`name`, `region`, `tags`) stay optional. -/
structure Service where
  url : String
  name : Option String
  method : String
  timeout : Rat
  expect_status : Nat
  headers : List (String × String)
  body : Option String
  wake_url : String
  wake_method : String
  wake_body : Option String
  wake_headers : List (String × String)
  region : Option String
  tags : Option (List String)
deriving DecidableEq, Repr

/-- The `setdefault` loop body of `load_services` (main.py lines 32-41):
`s.setdefault("method", "GET")`, `s.setdefault("timeout", GLOBAL_TIMEOUT_SECONDS)`,
`s.setdefault("expect_status", 200)`, `s.setdefault("headers", {})`,
`s.setdefault("body", None)`, `s.setdefault("wake_url", s.get("url"))`,
`s.setdefault("wake_method", "GET")`, `s.setdefault("wake_body", None)`,
`s.setdefault("wake_headers", {})`.  Note: no `setdefault` for `name`,
`region` or `tags`. -/
def applyDefaults (r : RawService) : Service :=
  { url := r.url
    name := r.name
    method := r.method.getD "GET"
    timeout := r.timeout.getD GLOBAL_TIMEOUT_SECONDS
    expect_status := r.expect_status.getD 200
    headers := r.headers.getD []
    body := r.body
    wake_url := r.wake_url.getD r.url
    wake_method := r.wake_method.getD "GET"
    wake_body := r.wake_body
    wake_headers := r.wake_headers.getD []
    region := r.region
    tags := r.tags }

/-- The state of the config file on disk, as seen by `load_services`
(main.py lines 27-31): missing, unparsable YAML, or parsed into a (possibly
empty) `services` list (`yaml.safe_load(f) or {}` and `data.get("services", [])`
both yield `[]` for an empty or service-less document). -/
inductive ConfigFile where
  | missing
  | malformed (msg : String)
  | parsed (services : List RawService)
deriving DecidableEq, Repr

/-- `load_services` (main.py lines 26-42).  Raises (`Except.error`) on a
missing or malformed config file; otherwise applies the `setdefault` loop to
every record and returns the list. -/
def load_services (cfg : ConfigFile) : Except String (List Service) :=
  match cfg with
  | .missing => .error ("Config not found: " ++ CONFIG_PATH)
  | .malformed msg => .error msg
  | .parsed services => .ok (services.map applyDefaults)

/-- Python truthiness of an optional string: `None` and `""` are falsy. -/
def truthyStr (o : Option String) : Bool :=
  match o with
  | none => false
  | some s => s ≠ ""

/-- Python `a or b` where `a` is an optional string and `b` a string
(`svc.get("name") or url`, main.py line 64). -/
def pyOrStr (a : Option String) (b : String) : String :=
  match a with
  | none => b
  | some s => if s = "" then b else s

/-- Python `a or b` on two optional strings
(`d.get("name") or d.get("url")`, main.py line 131). -/
def pyOr (a b : Option String) : Option String :=
  match a with
  | none => b
  | some s => if s = "" then b else some s

/-- The dict built by `check_one` (main.py lines 63-74): one probe result.
All ten keys are always present; `status_code` and `error` hold `None`
(= `none`) depending on the outcome. -/
structure ProbeResult where
  name : String
  url : String
  ok : Bool
  status_code : Option Nat
  latency_ms : Int
  checked_at : Nat
  error : Option String
  region : Option String
  tags : List String
  expect_status : Nat
deriving DecidableEq, Repr

/-- `check_one` (main.py lines 44-74).  The awaited `client.request(...)` is
externalised as `outcome : Except String Nat`: `.ok s` models a response with
status code `s`, `.error e` models a raised exception with `str(e) = e` —
the `try`/`except Exception` block catches every such exception.  The three
`time.time()` reads become the millisecond parameters `started` (line 47),
`finished` (line 62) and `reported` (line 69).  The function is total: no
outcome escapes it. -/
def check_one (svc : Service) (outcome : Except String Nat)
    (started finished reported : Nat) : ProbeResult :=
  let url := svc.url
  let ok := match outcome with
    | .ok s => s == svc.expect_status
    | .error _ => false
  let err : Option String := match outcome with
    | .ok _ => none
    | .error e => some e
  let status_code : Option Nat := match outcome with
    | .ok s => some s
    | .error _ => none
  let latency_ms : Int := (finished : Int) - (started : Int)
  { name := pyOrStr svc.name url
    url := url
    ok := ok
    status_code := status_code
    latency_ms := latency_ms
    checked_at := reported
    error := err
    region := svc.region
    tags := svc.tags.getD []
    expect_status := svc.expect_status }

/-- A value of the `_status` dict (main.py line 22).  Probe results carry all
keys; the sentinel `"__error__"` entry (lines 95 and 109) carries only `ok`,
`error` and `checked_at`, so every other key is optional. -/
structure StatusEntry where
  name : Option String := none
  url : Option String := none
  ok : Bool
  status_code : Option Nat := none
  latency_ms : Option Int := none
  checked_at : Nat
  error : Option String := none
  region : Option String := none
  tags : Option (List String) := none
  expect_status : Option Nat := none
deriving DecidableEq, Repr

/-- View a probe-result dict as a status-store value. -/
def ProbeResult.toEntry (r : ProbeResult) : StatusEntry :=
  { name := some r.name
    url := some r.url
    ok := r.ok
    status_code := r.status_code
    latency_ms := some r.latency_ms
    checked_at := r.checked_at
    error := r.error
    region := r.region
    tags := some r.tags
    expect_status := some r.expect_status }

/-- The sentinel entry written by the background loop on a loop-level
exception (main.py line 95). -/
def sentinelEntry (msg : String) (now : Nat) : StatusEntry :=
  { ok := false, error := some ("Background loop error: " ++ msg), checked_at := now }

/-- The `_status` dict (main.py line 22), embedded as an insertion-ordered
association list, matching CPython dict semantics: assigning to an existing
key updates the value in place (keeping its position); a new key is appended. -/
abbrev Store := List (String × StatusEntry)

/-- `_status[k] = e`: Python dict item assignment. -/
def Store.set (st : Store) (k : String) (e : StatusEntry) : Store :=
  match st with
  | [] => [(k, e)]
  | (k', e') :: rest =>
    if k' = k then (k, e) :: rest else (k', e') :: Store.set rest k e

/-- `_status.update(results)`: item assignment for each pair in order. -/
def Store.update (st : Store) (results : List (String × StatusEntry)) : Store :=
  results.foldl (fun acc kv => Store.set acc kv.1 kv.2) st

/-- Dict lookup `_status.get(k)` / `_status[k]`. -/
def Store.find? (st : Store) (k : String) : Option StatusEntry :=
  match st with
  | [] => none
  | (k', e) :: rest => if k' = k then some e else Store.find? rest k

/-- `list(_status.values())` (main.py line 129): values in insertion order. -/
def Store.values (st : Store) : List StatusEntry :=
  st.map Prod.snd

/-! ## String ordering

Python compares `str` values lexicographically by code point; `list.sort`
uses `<` and is stable.  We embed the code-point lexicographic order on
`String.data`. -/

/-- Lexicographic `≤` on code-point lists (Python string comparison). -/
def strLeAux : List Char → List Char → Bool
  | [], _ => true
  | _ :: _, [] => false
  | a :: as, b :: bs =>
    if a.toNat < b.toNat then true
    else if b.toNat < a.toNat then false
    else strLeAux as bs

/-- Python `a <= b` on strings: code-point lexicographic order. -/
def strLe (a b : String) : Bool := strLeAux a.data b.data

/-- Python `a < b` on strings. -/
def strLt (a b : String) : Bool := strLe a b && !(strLe b a)

/-! ## `/api/status` (main.py lines 127-132) -/

/-- The sort key of `data.sort(key=lambda d: d.get("name") or d.get("url"))`
(main.py line 131).  After the line-130 filter every entry has a truthy
`url`, so the key is always a string; `.getD ""` covers the dead branch. -/
def sortKey (d : StatusEntry) : String :=
  (pyOr d.name d.url).getD ""

/-- Insert into a `sortKey`-sorted list, before the first element whose key
is `≥` — the placement a stable sort gives an element that precedes the
list's elements in the original order. -/
def insertSorted (x : StatusEntry) : List StatusEntry → List StatusEntry
  | [] => [x]
  | y :: ys =>
    if strLe (sortKey x) (sortKey y) then x :: y :: ys
    else y :: insertSorted x ys

/-- Stable sort by `sortKey` — the specification of CPython's stable
`list.sort(key=...)` as an insertion sort. -/
def sortByKey : List StatusEntry → List StatusEntry
  | [] => []
  | x :: xs => insertSorted x (sortByKey xs)

/-- `api_status` (main.py lines 127-132): snapshot the dict values, keep
entries with a truthy `url` (dropping the sentinel, whose dict has no `url`
key), sort stably by `name or url`, and return them with `last_updated`. -/
def api_status (store : Store) (now : Nat) : List StatusEntry × Nat :=
  let data := store.values
  let data := data.filter (fun d => truthyStr d.url)
  (sortByKey data, now)

/-! ## Bounded fan-out prober `check_all_once` (main.py lines 76-87)

`check_all_once` creates `asyncio.Semaphore(CONCURRENCY_LIMIT)`, spawns one
task per entry of `_services`, and each task runs `check_one` inside
`async with sem:` — acquire before the request is issued, release on
completion, exceptional or not.  We embed the semaphore protocol as a
transition system counting tasks in each phase; any interleaving the asyncio
scheduler can produce is a path of this system. -/

/-- Task phases of one `check_all_once` call: `pending` tasks have not yet
acquired the semaphore, `inflight` tasks hold a permit (their request is
issued), `done` tasks have released it. -/
structure FanoutState where
  pending : Nat
  inflight : Nat
  done : Nat
deriving DecidableEq, Repr

/-- Initial state: one task per service (`tasks = [asyncio.create_task(_wrapped(s)) for s in _services]`,
main.py line 83), none started. -/
def fanoutInit (services : List Service) : FanoutState :=
  { pending := services.length, inflight := 0, done := 0 }

/-- One scheduler step, with concurrency ceiling `C`: a pending task may
acquire the semaphore only while fewer than `C` permits are out
(`async with sem:`, line 81); an in-flight task may complete and release its
permit, whatever the outcome of its request. -/
inductive FanoutStep (C : Nat) : FanoutState → FanoutState → Prop
  | acquire (s : FanoutState) (hp : 0 < s.pending) (hc : s.inflight < C) :
      FanoutStep C s { pending := s.pending - 1, inflight := s.inflight + 1, done := s.done }
  | release (s : FanoutState) (hi : 0 < s.inflight) :
      FanoutStep C s { pending := s.pending, inflight := s.inflight - 1, done := s.done + 1 }

/-- States reachable during one `check_all_once` call over `services`. -/
inductive FanoutReachable (C : Nat) (services : List Service) : FanoutState → Prop
  | init : FanoutReachable C services (fanoutInit services)
  | step {s s' : FanoutState} :
      FanoutReachable C services s → FanoutStep C s s' → FanoutReachable C services s'

/-! ## Scheduler loop `background_loop` (main.py lines 89-99) -/

/-- The outcome of one loop iteration's `await check_all_once()`: either a
result map (keyed by url, in completion order) or a raised exception `e`
with `str(e) = msg`. -/
inductive RoundOutcome where
  | success (results : List (String × StatusEntry))
  | failure (msg : String)
deriving DecidableEq, Repr

/-- One iteration of the `while` body (main.py lines 91-95): on success,
`_status.update(results)`; on an exception `e`, the `except Exception` arm
writes the sentinel `_status["__error__"] = {"ok": False, "error": f"Background loop error: {e}", "checked_at": ...}`. -/
def loop_body (store : Store) (o : RoundOutcome) (now : Nat) : Store :=
  match o with
  | .success results => store.update results
  | .failure msg => store.set "__error__" (sentinelEntry msg now)

/-- `background_loop` (main.py lines 89-99) over the iterations it executes
before observing `_stop_event` set: each round's outcome is folded into the
store by `loop_body`; an exception never exits the `while` (only the stop
check at line 90 does), so every listed round is processed. -/
def background_loop (store : Store) (rounds : List (RoundOutcome × Nat)) : Store :=
  rounds.foldl (fun st r => loop_body st r.1 r.2) store

/-! ## Shutdown `on_shutdown` (main.py lines 112-121) -/

/-- Where the background task is suspended when shutdown begins:
`midRound results` — inside `await check_all_once()` (line 92), where
`results` is the map the round would produce if allowed to finish;
`betweenRounds` — at the `asyncio.wait_for` interval wait (line 97);
`finished` — the task has already returned. -/
inductive TaskPoint where
  | midRound (results : List (String × StatusEntry))
  | betweenRounds
  | finished
deriving DecidableEq, Repr

/-- The scheduler-facing state at shutdown: the status store, the task's
suspension point, and the `_stop_event` flag. -/
structure SchedulerState where
  store : Store
  task : TaskPoint
  stopSet : Bool
deriving DecidableEq, Repr

/-- `on_shutdown` (main.py lines 112-121): `_stop_event.set()`, then
`task.cancel()`, then `await task`, swallowing its exception.  Between the
`set()` and the `cancel()` there is no `await`, so the task cannot run;
`cancel()` therefore delivers `asyncio.CancelledError` at the task's current
suspension point.  `CancelledError` derives from `BaseException`, so neither
the loop's `except Exception` (line 94) nor the `except asyncio.TimeoutError`
(line 98) catches it: a task suspended inside `await check_all_once()` aborts
without applying its round's results, and a task at the interval wait exits
without starting another round.  In every case the handler returns with the
store as it was and the task finished. -/
def on_shutdown (s : SchedulerState) : SchedulerState :=
  match s.task with
  | .midRound _ => { store := s.store, task := .finished, stopSet := true }
  | .betweenRounds => { store := s.store, task := .finished, stopSet := true }
  | .finished => { store := s.store, task := .finished, stopSet := true }

/-! ## `/api/wake` (main.py lines 134-155) and `/api/reload` (lines 166-172) -/

/-- A FastAPI `HTTPException(status_code=..., detail=...)`. -/
structure HTTPError where
  status_code : Nat
  detail : String
deriving DecidableEq, Repr

/-- The JSON body returned by `api_wake` on success (main.py line 153). -/
structure WakeResp where
  ok : Bool
  wake_status : Nat
  service_ok : Bool
  service_status : Option Nat
deriving DecidableEq, Repr

/-- `api_wake` (main.py lines 137-155).  Looks up the service by exact `url`
(line 139); 404 if absent.  Inside `try`: issues the wake request — its
outcome is the parameter `wakeOutcome`; an exception there jumps to the
`except` arm (500, `"Wake failed: ..."`) before `check_one` runs or the store
is touched.  On a wake response, runs `check_one` on the primary endpoint
(outcome `probeOutcome`; `check_one` is total, so this never raises), stores
the result under its url, and returns the success body.  Returns the
response (or error) together with the resulting store. -/
def api_wake (services : List Service) (store : Store) (url : String)
    (wakeOutcome : Except String Nat) (probeOutcome : Except String Nat)
    (started finished reported : Nat) : Except HTTPError WakeResp × Store :=
  match services.find? (fun s => s.url == url) with
  | none => (.error { status_code := 404, detail := "Service not found for given URL" }, store)
  | some svc =>
    match wakeOutcome with
    | .error e => (.error { status_code := 500, detail := "Wake failed: " ++ e }, store)
    | .ok wake_status =>
      let one := check_one svc probeOutcome started finished reported
      (.ok { ok := true, wake_status := wake_status,
             service_ok := one.ok, service_status := one.status_code },
       store.set one.url one.toEntry)

/-- The JSON body returned by `api_reload` on success (main.py line 172). -/
structure ReloadResp where
  ok : Bool
  services : Nat
deriving DecidableEq, Repr

/-- `api_reload` (main.py lines 166-172): `_services = load_services()` —
if `load_services` raises, the exception propagates to the framework and
neither global is assigned; otherwise the registry is replaced, one
`check_all_once` pass runs (its completion-ordered result map is the
parameter `roundResults`) and is merged into the store.  Returns the
response (or propagated error) with the resulting `(registry, store)`. -/
def api_reload (cfg : ConfigFile) (services : List Service) (store : Store)
    (roundResults : List (String × StatusEntry)) :
    Except String ReloadResp × (List Service × Store) :=
  match load_services cfg with
  | .error e => (.error e, (services, store))
  | .ok newServices =>
    let store := store.update roundResults
    (.ok { ok := true, services := newServices.length }, (newServices, store))

/-! ## Helper lemmas: the code-point order is a total preorder -/

theorem strLeAux_refl : ∀ l, strLeAux l l = true := by
  intro l
  induction l with
  | nil => rfl
  | cons a as ih => simp [strLeAux, ih]

theorem strLeAux_cons (a b : Char) (as bs : List Char) :
    strLeAux (a :: as) (b :: bs) = true ↔
      a.toNat < b.toNat ∨ (a.toNat = b.toNat ∧ strLeAux as bs = true) := by
  simp only [strLeAux]
  by_cases h1 : a.toNat < b.toNat
  · simp [h1]
  · by_cases h2 : b.toNat < a.toNat
    · simp [h1, h2]; omega
    · have he : a.toNat = b.toNat := by omega
      simp [h1, h2, he]

theorem strLeAux_total : ∀ l1 l2, strLeAux l1 l2 = true ∨ strLeAux l2 l1 = true := by
  intro l1
  induction l1 with
  | nil => intro l2; left; rfl
  | cons a as ih =>
    intro l2
    cases l2 with
    | nil => right; rfl
    | cons b bs =>
      by_cases h1 : a.toNat < b.toNat
      · left; simp [strLeAux, h1]
      · by_cases h2 : b.toNat < a.toNat
        · right; simp [strLeAux, h2]
        · rcases ih bs with h | h <;> [left; right] <;> simp [strLeAux, h1, h2, h]

theorem strLeAux_trans :
    ∀ l1 l2 l3, strLeAux l1 l2 = true → strLeAux l2 l3 = true → strLeAux l1 l3 = true := by
  intro l1
  induction l1 with
  | nil => intro l2 l3 _ _; rfl
  | cons a as ih =>
    intro l2 l3 h12 h23
    cases l2 with
    | nil => simp [strLeAux] at h12
    | cons b bs =>
      cases l3 with
      | nil => simp [strLeAux] at h23
      | cons c cs =>
        rw [strLeAux_cons] at h12 h23 ⊢
        rcases h12 with h | ⟨he, hr⟩ <;> rcases h23 with h' | ⟨he', hr'⟩
        · left; omega
        · left; omega
        · left; omega
        · exact Or.inr ⟨by omega, ih bs cs hr hr'⟩

theorem strLe_refl (a : String) : strLe a a = true :=
  strLeAux_refl a.data

theorem strLe_total (a b : String) : strLe a b = true ∨ strLe b a = true :=
  strLeAux_total a.data b.data

theorem strLe_trans {a b c : String} (h1 : strLe a b = true) (h2 : strLe b c = true) :
    strLe a c = true :=
  strLeAux_trans a.data b.data c.data h1 h2

/-! ## Helper lemmas: the stable insertion sort of `api_status` -/

theorem insertSorted_perm (x : StatusEntry) (l : List StatusEntry) :
    (insertSorted x l).Perm (x :: l) := by
  induction l with
  | nil => exact List.Perm.refl _
  | cons y ys ih =>
    simp only [insertSorted]
    by_cases h : strLe (sortKey x) (sortKey y) = true
    · simp [h]
    · simp only [h, if_neg]
      exact ((ih.cons y).trans (List.Perm.swap x y ys))

theorem sortByKey_perm (l : List StatusEntry) : (sortByKey l).Perm l := by
  induction l with
  | nil => exact List.Perm.refl _
  | cons x xs ih => exact (insertSorted_perm x (sortByKey xs)).trans (ih.cons x)

theorem pairwise_insertSorted (x : StatusEntry) (l : List StatusEntry)
    (h : l.Pairwise (fun a b => strLe (sortKey a) (sortKey b) = true)) :
    (insertSorted x l).Pairwise (fun a b => strLe (sortKey a) (sortKey b) = true) := by
  induction l with
  | nil => simp [insertSorted]
  | cons y ys ih =>
    rcases List.pairwise_cons.mp h with ⟨hy, hys⟩
    simp only [insertSorted]
    by_cases hle : strLe (sortKey x) (sortKey y) = true
    · simp only [hle, if_pos]
      refine List.pairwise_cons.mpr ⟨?_, h⟩
      intro z hz
      rcases List.mem_cons.mp hz with rfl | hz
      · exact hle
      · exact strLe_trans hle (hy z hz)
    · simp only [hle, if_neg]
      refine List.pairwise_cons.mpr ⟨?_, ih hys⟩
      intro z hz
      rcases List.mem_cons.mp ((insertSorted_perm x ys).mem_iff.mp hz) with heq | hz
      · subst heq
        rcases strLe_total (sortKey z) (sortKey y) with h' | h'
        · exact absurd h' hle
        · exact h'
      · exact hy z hz

theorem sortByKey_pairwise (l : List StatusEntry) :
    (sortByKey l).Pairwise (fun a b => strLe (sortKey a) (sortKey b) = true) := by
  induction l with
  | nil => simp [sortByKey]
  | cons x xs ih => exact pairwise_insertSorted x (sortByKey xs) ih

theorem filter_insertSorted (x : StatusEntry) (l : List StatusEntry) (k : String) :
    (insertSorted x l).filter (fun d => sortKey d == k) =
      if (sortKey x == k) = true then x :: l.filter (fun d => sortKey d == k)
      else l.filter (fun d => sortKey d == k) := by
  induction l with
  | nil =>
    by_cases hx : (sortKey x == k) = true
    · simp [insertSorted, hx]
    · simp [insertSorted, hx]
  | cons y ys ih =>
    simp only [insertSorted]
    by_cases hle : strLe (sortKey x) (sortKey y) = true
    · rw [if_pos hle]
      by_cases hx : (sortKey x == k) = true
      · simp [List.filter_cons, hx]
      · simp [List.filter_cons, hx]
    · rw [if_neg hle]
      by_cases hx : (sortKey x == k) = true
      · have hy : (sortKey y == k) = false := by
          apply beq_eq_false_iff_ne.mpr
          intro hyk
          have hxy : sortKey x = sortKey y := by rw [eq_of_beq hx, hyk]
          exact hle (by rw [← hxy]; exact strLe_refl (sortKey x))
        simp [List.filter_cons, hx, hy, ih]
      · have hx' : (sortKey x == k) = false := by
          cases h : sortKey x == k
          · rfl
          · exact absurd h hx
        by_cases hy : (sortKey y == k) = true
        · simp [List.filter_cons, hx', hy, ih]
        · have hy' : (sortKey y == k) = false := by
            cases h : sortKey y == k
            · rfl
            · exact absurd h hy
          simp [List.filter_cons, hx', hy', ih]

theorem sortByKey_stable (l : List StatusEntry) (k : String) :
    (sortByKey l).filter (fun d => sortKey d == k) = l.filter (fun d => sortKey d == k) := by
  induction l with
  | nil => rfl
  | cons x xs ih =>
    rw [sortByKey, filter_insertSorted, List.filter_cons, ih]

/-! ## Helper lemmas: the store -/

theorem Store.find?_set_self (st : Store) (k : String) (e : StatusEntry) :
    Store.find? (Store.set st k e) k = some e := by
  induction st with
  | nil => simp [Store.set, Store.find?]
  | cons kv rest ih =>
    by_cases h : kv.1 = k
    · simp [Store.set, Store.find?, h]
    · simp [Store.set, Store.find?, h, ih]

/-- Projection fact used when rewriting `api_wake`: `check_one` reports the
primary url of its spec (main.py lines 45 and 65). -/
theorem check_one_url (svc : Service) (outcome : Except String Nat)
    (started finished reported : Nat) :
    (check_one svc outcome started finished reported).url = svc.url := rfl

/-! ## Concrete instances used by witnesses and counterexamples -/

/-- A minimal config record: only the required `url` key. -/
def rawExample : RawService := { url := "http://a" }

/-- The service `load_services` produces from `rawExample`. -/
def svcExample : Service := applyDefaults rawExample

/-- A second service, for multi-service registries. -/
def svcExample2 : Service := applyDefaults { url := "http://b" }

/-- A probe-result entry with name `"svc"` and url `"http://b"`. -/
def entryB : StatusEntry :=
  { name := some "svc", url := some "http://b", ok := true, checked_at := 0 }

/-- A probe-result entry with the same name `"svc"` but url `"http://a"`. -/
def entryA : StatusEntry :=
  { name := some "svc", url := some "http://a", ok := true, checked_at := 0 }

/-- A store holding `entryB` before `entryA` (dict insertion order). -/
def tieStore : Store := [("http://b", entryB), ("http://a", entryA)]

/-- The result a mid-flight probe round would deliver for `"http://a"`. -/
def roundEntryA : StatusEntry :=
  { name := some "a", url := some "http://a", ok := true, checked_at := 9 }

/-- A scheduler state whose background task is suspended inside
`await check_all_once()` with that round's results still pending. -/
def midFlightState : SchedulerState :=
  { store := [], task := .midRound [("http://a", roundEntryA)], stopSet := false }

/-! ## The claims -/

/-- C1: for every ServiceSpec, when the probe's request returns a response
with status code `s` (no exception), the returned ProbeResult has
`statusCode = s`, `ok = (s == expectStatus)` and `error` absent; in
particular, with `expectStatus = 200` and a 200 response, `ok = true`. -/
theorem check_one_response_fields (svc : Service) (s : Nat)
    (started finished reported : Nat) :
    (check_one svc (.ok s) started finished reported).status_code = some s ∧
    (check_one svc (.ok s) started finished reported).ok = (s == svc.expect_status) ∧
    (check_one svc (.ok s) started finished reported).error = none ∧
    (svc.expect_status = 200 → s = 200 →
      (check_one svc (.ok s) started finished reported).ok = true) := by
  refine ⟨rfl, rfl, rfl, ?_⟩
  intro h1 h2
  simp [check_one, h1, h2]

/-- C1 witness: the 200-expecting example service probed with a 200
response has `statusCode = 200`, `ok = true`, `error` absent. -/
theorem check_one_response_fields_witness :
    (check_one svcExample (.ok 200) 0 7 7).status_code = some 200 ∧
    (check_one svcExample (.ok 200) 0 7 7).ok = (200 == svcExample.expect_status) ∧
    (check_one svcExample (.ok 200) 0 7 7).error = none ∧
    svcExample.expect_status = 200 ∧
    (check_one svcExample (.ok 200) 0 7 7).ok = true := by
  have h := check_one_response_fields svcExample 200 0 7 7
  exact ⟨h.1, h.2.1, h.2.2.1, rfl, h.2.2.2 rfl rfl⟩

/-- C2: for every ServiceSpec, a probe whose request raises (transport,
timeout, DNS, connection) does not propagate the exception: `check_one` is a
total function whose `.error` branch yields `ok = false`, `statusCode`
absent, `error` present, and `latencyMs ≥ 0` (wall clock measured
start-to-completion, assuming the clock did not run backwards). -/
theorem check_one_failure_fields (svc : Service) (msg : String)
    (started finished reported : Nat) (h : started ≤ finished) :
    (check_one svc (.error msg) started finished reported).ok = false ∧
    (check_one svc (.error msg) started finished reported).status_code = none ∧
    (check_one svc (.error msg) started finished reported).error = some msg ∧
    0 ≤ (check_one svc (.error msg) started finished reported).latency_ms := by
  refine ⟨rfl, rfl, rfl, ?_⟩
  simp only [check_one]
  omega

/-- C2 witness: the example service probed against an unreachable host
(request raised after 5ms) yields the failure-shaped result. -/
theorem check_one_failure_fields_witness :
    (0 : Nat) ≤ 5 ∧
    (check_one svcExample (.error "connect timeout") 0 5 5).ok = false ∧
    (check_one svcExample (.error "connect timeout") 0 5 5).status_code = none ∧
    (check_one svcExample (.error "connect timeout") 0 5 5).error = some "connect timeout" ∧
    0 ≤ (check_one svcExample (.error "connect timeout") 0 5 5).latency_ms := by
  have h := check_one_failure_fields svcExample "connect timeout" 0 5 5 (by decide)
  exact ⟨by decide, h.1, h.2.1, h.2.2.1, h.2.2.2⟩

/-- C3 counterexample: two entries share the name `"svc"`; the one with the
larger url `"http://b"` was inserted first.  `api_status` returns them in
insertion order (`entryB` before `entryA`) because the line-131 sort key is
only `name or url`: the tie between equal names is NOT broken by url. -/
theorem api_status_tie_not_broken_by_url :
    (api_status tieStore 0).1 = [entryB, entryA] ∧
    entryB.name = entryA.name ∧
    entryB.url = some "http://b" ∧
    entryA.url = some "http://a" ∧
    strLt "http://a" "http://b" = true := by decide

/-- C3 amended: `api_status` returns exactly the stored entries with a
truthy `url` (the sentinel, which has none, is excluded), sorted ascending
by the key `name or url`; entries with equal keys keep their store
(insertion) order — Python's sort is stable — rather than being ordered by
url. -/
theorem api_status_snapshot_spec (store : Store) (now : Nat) :
    ((api_status store now).1).Perm
      ((Store.values store).filter (fun d => truthyStr d.url)) ∧
    ((api_status store now).1).Pairwise
      (fun a b => strLe (sortKey a) (sortKey b) = true) ∧
    (∀ k : String,
      ((api_status store now).1).filter (fun d => sortKey d == k) =
        ((Store.values store).filter (fun d => truthyStr d.url)).filter
          (fun d => sortKey d == k)) ∧
    (api_status store now).2 = now := by
  exact ⟨sortByKey_perm _, sortByKey_pairwise _, fun k => sortByKey_stable _ k, rfl⟩

/-- C4: with ceiling `C` and one task launched per registry entry (`N` of
them, `N > C`), every state reachable under the semaphore protocol of
`check_all_once` has at most `C` requests in flight, and the `N` tasks are
conserved across the pending/in-flight/done phases. -/
theorem fanout_concurrency_bound (C : Nat) (services : List Service)
    (s : FanoutState) (_hNC : C < services.length)
    (h : FanoutReachable C services s) :
    s.inflight ≤ C ∧ s.pending + s.inflight + s.done = services.length := by
  induction h with
  | init => exact ⟨Nat.zero_le C, by simp [fanoutInit]⟩
  | step hr hstep ih =>
    rcases ih with ⟨ih1, ih2⟩
    cases hstep with
    | acquire hp hc =>
      refine ⟨hc, ?_⟩
      dsimp only
      omega
    | release hi =>
      refine ⟨Nat.le_trans (Nat.sub_le _ _) ih1, ?_⟩
      dsimp only
      omega

/-- C4 witness: with ceiling 1 over a 2-service registry, the reachable
state after one acquisition has 1 ≤ 1 requests in flight and conserves both
tasks. -/
theorem fanout_concurrency_bound_witness :
    (1 : Nat) < [svcExample, svcExample2].length ∧
    ({ pending := 1, inflight := 1, done := 0 } : FanoutState).inflight ≤ 1 ∧
    ({ pending := 1, inflight := 1, done := 0 } : FanoutState).pending +
      ({ pending := 1, inflight := 1, done := 0 } : FanoutState).inflight +
      ({ pending := 1, inflight := 1, done := 0 } : FanoutState).done =
      [svcExample, svcExample2].length := by
  have hstep : FanoutStep 1 (fanoutInit [svcExample, svcExample2])
      { pending := 1, inflight := 1, done := 0 } :=
    FanoutStep.acquire (fanoutInit [svcExample, svcExample2]) (by decide) (by decide)
  have hreach : FanoutReachable 1 [svcExample, svcExample2]
      { pending := 1, inflight := 1, done := 0 } :=
    FanoutReachable.step FanoutReachable.init hstep
  have h := fanout_concurrency_bound 1 [svcExample, svcExample2]
    { pending := 1, inflight := 1, done := 0 } (by decide) hreach
  exact ⟨by decide, h.1, h.2⟩

/-- C5: an exception `msg` raised inside the scheduler loop body is caught
by the `except Exception` arm: the sentinel `"__error__"` entry is written
with `ok = false` and the message `"Background loop error: " ++ msg`, and
the loop goes on to process the remaining rounds — processing of the round
list is unaffected by the failure (the `while` exits only via the stop
event, which is the list's end in this embedding). -/
theorem background_loop_fault_isolated (store : Store) (msg : String) (now : Nat)
    (rest : List (RoundOutcome × Nat)) :
    background_loop store ((RoundOutcome.failure msg, now) :: rest) =
      background_loop (Store.set store "__error__" (sentinelEntry msg now)) rest ∧
    Store.find? (Store.set store "__error__" (sentinelEntry msg now)) "__error__" =
      some (sentinelEntry msg now) ∧
    (sentinelEntry msg now).ok = false ∧
    (sentinelEntry msg now).error = some ("Background loop error: " ++ msg) :=
  ⟨rfl, Store.find?_set_self store _ _, rfl, rfl⟩

/-- C6 counterexample: shutdown begins while a round is mid-flight with a
result for `"http://a"` pending.  `on_shutdown` force-cancels the task
(main.py line 117), so the handler returns with the task finished but the
round's result NOT applied to the store — refuting "stop() returns only
after that round's results have been applied". -/
theorem on_shutdown_aborts_inflight_round :
    midFlightState.task = .midRound [("http://a", roundEntryA)] ∧
    (on_shutdown midFlightState).task = .finished ∧
    Store.find? (on_shutdown midFlightState).store "http://a" = none := by decide

/-- C6 amended: `stop()` sets the stop signal and force-cancels the
background task; after it returns the task is finished (so no new round ever
starts), but the store is exactly what it was when `stop()` was called — an
in-flight round is aborted at its suspension point and its results are never
applied. -/
theorem on_shutdown_spec (s : SchedulerState) :
    (on_shutdown s).stopSet = true ∧
    (on_shutdown s).task = .finished ∧
    (on_shutdown s).store = s.store := by
  cases s with
  | mk store task stop => cases task <;> exact ⟨rfl, rfl, rfl⟩

/-- C7: `wake(url)` for a url registered to no service returns the 404
"Service not found for given URL" error and leaves the status store
completely unchanged. -/
theorem api_wake_unknown_url (services : List Service) (store : Store) (url : String)
    (wakeOutcome probeOutcome : Except String Nat) (started finished reported : Nat)
    (h : ∀ svc ∈ services, svc.url ≠ url) :
    api_wake services store url wakeOutcome probeOutcome started finished reported =
      (.error { status_code := 404, detail := "Service not found for given URL" }, store) := by
  have hfind : services.find? (fun s => s.url == url) = none := by
    apply List.find?_eq_none.mpr
    intro svc hmem
    simpa using h svc hmem
  simp [api_wake, hfind]

/-- C7 witness: waking `"http://unknown"` against a registry holding only
`"http://a"` is a 404 and the (empty) store is returned untouched. -/
theorem api_wake_unknown_url_witness :
    (∀ svc ∈ [svcExample], svc.url ≠ "http://unknown") ∧
    api_wake [svcExample] [] "http://unknown" (.ok 200) (.ok 200) 0 1 1 =
      (.error { status_code := 404, detail := "Service not found for given URL" }, []) := by
  have h : ∀ svc ∈ [svcExample], svc.url ≠ "http://unknown" := by decide
  exact ⟨h, api_wake_unknown_url [svcExample] [] "http://unknown" (.ok 200) (.ok 200) 0 1 1 h⟩

/-- C8 counterexample: the wake request succeeds (200) but the follow-up
probe fails in transport.  `check_one` captures the failure, the result
(`ok = false`) is recorded in the store, and `api_wake` returns the SUCCESS
body `{ok: true, ...}` — not a `WakeFailed` error — refuting "any failure in
.. the follow-up probe causes wake(url) to report a WakeFailed error". -/
theorem api_wake_probe_failure_no_error :
    (api_wake [svcExample] [] "http://a" (.ok 200) (.error "connection refused") 0 5 5).1 =
      .ok { ok := true, wake_status := 200, service_ok := false, service_status := none } ∧
    (api_wake [svcExample] [] "http://a" (.ok 200) (.error "connection refused") 0 5 5).2 =
      [("http://a", (check_one svcExample (.error "connection refused") 0 5 5).toEntry)] ∧
    (check_one svcExample (.error "connection refused") 0 5 5).ok = false ∧
    (check_one svcExample (.error "connection refused") 0 5 5).error =
      some "connection refused" :=
  ⟨rfl, rfl, rfl, rfl⟩

/-- C8 amended: for a registered service, a failure of the wake request
itself is reported as the 500 `"Wake failed: ..."` error with the store
untouched (the follow-up probe never runs); once the wake request returns,
the call succeeds for every probe outcome — the probe result (including a
captured probe failure, `ok = false`) is recorded in the store and echoed in
the response body. -/
theorem api_wake_failure_semantics (services : List Service) (store : Store)
    (url : String) (svc : Service) (e : String) (ws : Nat)
    (probeOutcome : Except String Nat) (started finished reported : Nat)
    (h : services.find? (fun s => s.url == url) = some svc) :
    api_wake services store url (.error e) probeOutcome started finished reported =
      (.error { status_code := 500, detail := "Wake failed: " ++ e }, store) ∧
    api_wake services store url (.ok ws) probeOutcome started finished reported =
      (.ok { ok := true, wake_status := ws,
             service_ok := (check_one svc probeOutcome started finished reported).ok,
             service_status :=
               (check_one svc probeOutcome started finished reported).status_code },
       Store.set store svc.url
         (check_one svc probeOutcome started finished reported).toEntry) := by
  constructor <;> simp [api_wake, h, check_one_url]

/-- C8 amended witness: concrete registry with one service; a failed wake is
a 500 with the store untouched, and a successful wake records the probe
result. -/
theorem api_wake_failure_semantics_witness :
    [svcExample].find? (fun s => s.url == "http://a") = some svcExample ∧
    api_wake [svcExample] [] "http://a" (.error "boom") (.ok 200) 0 1 1 =
      (.error { status_code := 500, detail := "Wake failed: boom" }, []) ∧
    api_wake [svcExample] [] "http://a" (.ok 201) (.ok 200) 0 1 1 =
      (.ok { ok := true, wake_status := 201,
             service_ok := (check_one svcExample (.ok 200) 0 1 1).ok,
             service_status := (check_one svcExample (.ok 200) 0 1 1).status_code },
       Store.set [] svcExample.url (check_one svcExample (.ok 200) 0 1 1).toEntry) := by
  have h : [svcExample].find? (fun s => s.url == "http://a") = some svcExample := rfl
  have hm := api_wake_failure_semantics [svcExample] [] "http://a" svcExample
    "boom" 201 (.ok 200) 0 1 1 h
  exact ⟨h, hm.1, hm.2⟩

/-- C9 counterexample: a config record carrying only `url` comes out of
`load_services` with NO `name` field — the loader's `setdefault` loop never
defaults `name` (it is defaulted to `url` later, inside `check_one`) —
refuting "name defaults to url ... applied exactly once at load time so
every field is present on every record the loader returns". -/
theorem load_services_name_not_defaulted :
    load_services (.parsed [rawExample]) = .ok [svcExample] ∧
    svcExample.name = none ∧
    svcExample.name ≠ some svcExample.url := by
  refine ⟨rfl, rfl, by decide⟩

/-- C9 amended: at load time `load_services` defaults `method` to GET,
`timeout` to the global timeout, `expectStatus` to 200, `headers` to empty,
`body` to absent, and `wakeUrl`/`wakeMethod`/`wakeBody`/`wakeHeaders` to the
primary url/GET/absent/empty — but it leaves `name` (and `region`, `tags`)
exactly as in the raw record; the `name`-defaults-to-`url` fallback happens
per probe, inside `check_one`. -/
theorem load_defaults_spec (r : RawService) :
    (applyDefaults r).url = r.url ∧
    (applyDefaults r).method = r.method.getD "GET" ∧
    (applyDefaults r).timeout = r.timeout.getD GLOBAL_TIMEOUT_SECONDS ∧
    (applyDefaults r).expect_status = r.expect_status.getD 200 ∧
    (applyDefaults r).headers = r.headers.getD [] ∧
    (applyDefaults r).body = r.body ∧
    (applyDefaults r).wake_url = r.wake_url.getD r.url ∧
    (applyDefaults r).wake_method = r.wake_method.getD "GET" ∧
    (applyDefaults r).wake_body = r.wake_body ∧
    (applyDefaults r).wake_headers = r.wake_headers.getD [] ∧
    (applyDefaults r).name = r.name ∧
    (applyDefaults r).region = r.region ∧
    (applyDefaults r).tags = r.tags ∧
    load_services (.parsed [r]) = .ok [applyDefaults r] ∧
    (∀ outcome started finished reported,
      (check_one (applyDefaults r) outcome started finished reported).name =
        pyOrStr r.name r.url) :=
  ⟨rfl, rfl, rfl, rfl, rfl, rfl, rfl, rfl, rfl, rfl, rfl, rfl, rfl, rfl,
    fun _ _ _ _ => rfl⟩

/-- C10: when `load_services` raises during `/api/reload` (missing or
malformed config), the exception propagates to the caller and neither the
registry nor the status store is modified — reload is atomic on failure. -/
theorem api_reload_atomic_on_failure (cfg : ConfigFile) (services : List Service)
    (store : Store) (roundResults : List (String × StatusEntry)) (e : String)
    (h : load_services cfg = .error e) :
    api_reload cfg services store roundResults = (.error e, (services, store)) := by
  simp [api_reload, h]

/-- C10 witness: reloading with the config file missing propagates the
"Config not found" error and keeps the one-service registry and one-entry
store intact. -/
theorem api_reload_atomic_on_failure_witness :
    load_services .missing = .error ("Config not found: " ++ CONFIG_PATH) ∧
    api_reload .missing [svcExample] [("http://a", roundEntryA)] [] =
      (.error ("Config not found: " ++ CONFIG_PATH),
       ([svcExample], [("http://a", roundEntryA)])) := by
  have h : load_services .missing = .error ("Config not found: " ++ CONFIG_PATH) := rfl
  exact ⟨h, api_reload_atomic_on_failure .missing [svcExample]
    [("http://a", roundEntryA)] [] ("Config not found: " ++ CONFIG_PATH) h⟩

end Uptime
